import Mathlib

/-!
Shallow embedding of the TestRail MCP server repository
(`mcp_testrail/testrail_client.py` and `mcp_testrail/mcp_server.py`)
together with proofs settling the specification claims.

Python values flowing through the client are modelled by the `Json`
inductive; optional Python parameters (`Optional[int]`,
`Optional[List[int]]`) are `Option Int` / `Option (List Int)`;
Python exceptions are the `Except String` error channel.  Each Lean
definition carries a comment naming the source lines it embeds.
-/

/-- Python/JSON values as handled by the client (`response.json()` results,
request bodies, tool results). -/
inductive Json where
  | null
  | bool (b : Bool)
  | num (n : Int)
  | str (s : String)
  | arr (xs : List Json)
  | obj (kvs : List (String × Json))

mutual
/-- Structural equality of JSON values (Python `==`). -/
def jeq : Json → Json → Bool
  | Json.null, Json.null => true
  | Json.bool a, Json.bool b => a == b
  | Json.num a, Json.num b => a == b
  | Json.str a, Json.str b => a == b
  | Json.arr a, Json.arr b => jeqList a b
  | Json.obj a, Json.obj b => jeqKvs a b
  | _, _ => false

def jeqList : List Json → List Json → Bool
  | [], [] => true
  | a :: as, b :: bs => jeq a b && jeqList as bs
  | _, _ => false

def jeqKvs : List (String × Json) → List (String × Json) → Bool
  | [], [] => true
  | (ka, va) :: as, (kb, vb) :: bs => ka == kb && jeq va vb && jeqKvs as bs
  | _, _ => false
end

instance : BEq Json := ⟨jeq⟩

/-- Dictionary lookup, embedding Python `d[k]` / `k in d` on a decoded JSON
object (association list; first binding wins). -/
def jLookup (kvs : List (String × Json)) (k : String) : Option Json :=
  (kvs.find? (fun kv => kv.1 = k)).map Prod.snd

mutual
/-- Python `repr` of a JSON value (used by `str` for values nested in
containers).  String escaping is not modelled beyond quoting. -/
def pyRepr : Json → String
  | Json.null => "None"
  | Json.bool true => "True"
  | Json.bool false => "False"
  | Json.num n => toString n
  | Json.str s => "'" ++ s ++ "'"
  | Json.arr xs => "[" ++ String.intercalate ", " (pyReprList xs) ++ "]"
  | Json.obj kvs => "\x7b" ++ String.intercalate ", " (pyReprKvs kvs) ++ "\x7d"

def pyReprList : List Json → List String
  | [] => []
  | j :: rest => pyRepr j :: pyReprList rest

def pyReprKvs : List (String × Json) → List String
  | [] => []
  | (k, v) :: rest => ("'" ++ k ++ "': " ++ pyRepr v) :: pyReprKvs rest
end

/-- Python `str()` / f-string interpolation of a JSON value. -/
def pyStr : Json → String
  | Json.str s => s
  | j => pyRepr j

/-- A value stored in the `params` dict of a request: the call sites put
either an `int` (scalar filters, passed through unchanged) or a `str`
(comma-joined list filters) under each key. -/
inductive PValue where
  | int (n : Int)
  | str (s : String)
deriving DecidableEq, Repr

/-- Embeds `",".join(map(str, l))` (testrail_client.py, e.g. line 420). -/
def commaJoin (l : List Int) : String :=
  String.intercalate "," (l.map toString)

/-- Python truthiness of an `Optional[int]` argument: `None` and `0` are
falsy, every other int is truthy. -/
def truthyInt : Option Int → Bool
  | none => false
  | some n => n != 0

/-- Python truthiness of an `Optional[List[int]]` argument: `None` and the
empty list are falsy. -/
def truthyList : Option (List Int) → Bool
  | none => false
  | some l => !l.isEmpty

/-- Embeds one `if x: params["k"] = x` statement for a scalar filter
(truthiness test, insertion order preserved). -/
def putTruthyInt (ps : List (String × PValue)) (k : String) (v : Option Int) :
    List (String × PValue) :=
  match v with
  | some n => if n != 0 then ps ++ [(k, PValue.int n)] else ps
  | none => ps

/-- Embeds one `if xs: params["k"] = ",".join(map(str, xs))` statement for a
list filter. -/
def putTruthyList (ps : List (String × PValue)) (k : String)
    (v : Option (List Int)) : List (String × PValue) :=
  match v with
  | some l => if !l.isEmpty then ps ++ [(k, PValue.str (commaJoin l))] else ps
  | none => ps

/-- Embeds one `if x is not None: params["k"] = x` statement (used for
`is_completed`, `is_started` and the `soft` delete flag). -/
def putNotNone (ps : List (String × PValue)) (k : String) (v : Option Int) :
    List (String × PValue) :=
  match v with
  | some n => ps ++ [(k, PValue.int n)]
  | none => ps

/-! ### Client construction (testrail_client.py lines 14-35) -/

/-- UTF-8 encoding of one code point, as Python `bytes(s, "utf-8")`
produces. -/
def utf8Char (c : Char) : List Nat :=
  let n := c.toNat
  if n < 0x80 then [n]
  else if n < 0x800 then [0xC0 + n / 64, 0x80 + n % 64]
  else if n < 0x10000 then
    [0xE0 + n / 4096, 0x80 + n / 64 % 64, 0x80 + n % 64]
  else
    [0xF0 + n / 262144, 0x80 + n / 4096 % 64, 0x80 + n / 64 % 64, 0x80 + n % 64]

/-- UTF-8 bytes of a string. -/
def utf8Bytes (s : String) : List Nat :=
  s.data.flatMap utf8Char

/-- The standard base64 alphabet. -/
def b64Alphabet : List Char :=
  "ABCDEFGHIJKLMNOPQRSTUVWXYZabcdefghijklmnopqrstuvwxyz0123456789+/".data

/-- One base64 digit. -/
def b64Digit (n : Nat) : Char := b64Alphabet.getD n 'A'

/-- Base64 of a byte list (with padding), as `base64.b64encode`. -/
def b64encode : List Nat → String
  | [] => ""
  | [a] =>
    String.mk [b64Digit (a / 4), b64Digit (a % 4 * 16)] ++ "=="
  | [a, b] =>
    String.mk [b64Digit (a / 4), b64Digit (a % 4 * 16 + b / 16),
      b64Digit (b % 16 * 4)] ++ "="
  | a :: b :: c :: rest =>
    String.mk [b64Digit (a / 4), b64Digit (a % 4 * 16 + b / 16),
      b64Digit (b % 16 * 4 + c / 64), b64Digit (c % 64)] ++ b64encode rest

/-- The credential token: `base64.b64encode(bytes("user:key", "utf-8"))`
(testrail_client.py lines 28-30). -/
def authToken (username api_key : String) : String :=
  b64encode (utf8Bytes (username ++ ":" ++ api_key))

/-- Embeds `base_url.endswith("/")`: true iff the last character is `/`. -/
def endsWithSlash (s : String) : Bool :=
  s.data.getLast? == some '/'

/-- Embeds lines 24-27 of `__init__`: append a trailing slash when absent,
then the fixed API path suffix. -/
def normalizeBaseUrl (base_url : String) : String :=
  let base_url := if endsWithSlash base_url then base_url else base_url ++ "/"
  base_url ++ "index.php?/api/v2/"

/-- The state a `TestRailClient` instance holds after `__init__`
(testrail_client.py lines 14-35): the normalized base URL, the credential
token, and the two default session headers. -/
structure TestRailClient where
  base_url : String
  auth : String
  headers : List (String × String)

/-- Embeds `TestRailClient.__init__`. -/
def mkClient (base_url username api_key : String) : TestRailClient :=
  let auth := authToken username api_key
  { base_url := normalizeBaseUrl base_url
    auth := auth
    headers := [("Content-Type", "application/json"),
                ("Authorization", "Basic " ++ auth)] }

/-! ### Request construction (`_send_request`, lines 37-77) -/

/-- The keyword arguments `_send_request` hands to `session.request`:
`headers = none` means the session's default headers apply; `params = []`
means no `params` entry was attached (`if params:` skipped the empty dict).
A file entry is (field name, filename, content). -/
structure RequestKwargs where
  method : String
  url : String
  params : List (String × PValue)
  headers : Option (List (String × String))
  files : List (String × String × String)
  formData : Option Json
  jsonBody : Option Json

/-- Python truthiness of the optional `data` dict: `None` and an empty dict
are falsy. -/
def truthyData : Option Json → Bool
  | some (Json.obj kvs) => !kvs.isEmpty
  | some _ => true
  | none => false

/-- Embeds `_send_request` lines 58-77: URL composition, the `if params:`
attachment, and the files / JSON-body branching (the file branch drops the
Content-Type header and demotes `data` to form fields). -/
def sendRequestKwargs (c : TestRailClient) (method endpoint : String)
    (data : Option Json) (files : List (String × String × String))
    (params : List (String × PValue)) : RequestKwargs :=
  let kw : RequestKwargs :=
    { method := method, url := c.base_url ++ endpoint, params := [],
      headers := none, files := [], formData := none, jsonBody := none }
  let kw := if !params.isEmpty then { kw with params := params } else kw
  if !files.isEmpty then
    { kw with
      headers := some (c.headers.filter (fun kv => kv.1 != "Content-Type")),
      files := files,
      formData := if truthyData data then data else none }
  else if truthyData data then { kw with jsonBody := data }
  else kw

/-! ### Response classification (`_send_request`, lines 79-95) -/

/-- Whether `needle` occurs as a substring of `s` (Python `needle in s`). -/
def strContains (s needle : String) : Bool :=
  decide (needle.data <:+: s.data)

/-- Embeds the error-message composition of lines 80-89 for a response with
the given status.  `parsed = none` means `response.json()` raised.  The
`try` block covers both the decode and the `"error" in error_data` /
`error_data["error"]` accesses, so:
an object body appends the `error` value when the key exists and nothing
otherwise; a list body raises `TypeError` on `error_data["error"]` only
when the membership test succeeded; a string body tests substring
membership and then raises `TypeError` on indexing; any other body raises
`TypeError` on the membership test itself; every exception lands in the
`except` branch which appends the raw response text. -/
def errorMessage (status : Nat) (parsed : Option Json) (rawText : String) :
    String :=
  let base := "TestRail API returned HTTP " ++ toString status
  match parsed with
  | none => base ++ ": " ++ rawText
  | some (Json.obj kvs) =>
    match jLookup kvs "error" with
    | some v => base ++ ": " ++ pyStr v
    | none => base
  | some (Json.arr xs) =>
    if xs.contains (Json.str "error") then base ++ ": " ++ rawText else base
  | some (Json.str s) =>
    if strContains s "error" then base ++ ": " ++ rawText else base
  | some _ => base ++ ": " ++ rawText

/-- Embeds lines 79-95 of `_send_request`: status ≥ 400 raises the composed
error message; otherwise the decoded JSON is returned unchanged, or the
`{"text": raw}` fallback when decoding failed. -/
def classifyResponse (status : Nat) (parsed : Option Json)
    (rawText : String) : Except String Json :=
  if status ≥ 400 then Except.error (errorMessage status parsed rawText)
  else
    match parsed with
    | some j => Except.ok j
    | none => Except.ok (Json.obj [("text", Json.str rawText)])

/-! ### Query-parameter builders of the listing operations
Each definition mirrors, statement by statement, the `params = {}` block of
the corresponding method of `testrail_client.py`; insertion order is the
order of the source `if` statements. -/

/-- Params of `get_cases` (lines 107-156). -/
def get_cases_params (suite_id section_id created_after created_before : Option Int)
    (created_by milestone_id priority_id template_id type_id : Option (List Int))
    (updated_after updated_before : Option Int) (updated_by : Option (List Int))
    (limit offset : Option Int) : List (String × PValue) :=
  let params := []
  let params := putTruthyInt params "suite_id" suite_id
  let params := putTruthyInt params "section_id" section_id
  let params := putTruthyInt params "created_after" created_after
  let params := putTruthyInt params "created_before" created_before
  let params := putTruthyList params "created_by" created_by
  let params := putTruthyList params "milestone_id" milestone_id
  let params := putTruthyList params "priority_id" priority_id
  let params := putTruthyList params "template_id" template_id
  let params := putTruthyList params "type_id" type_id
  let params := putTruthyInt params "updated_after" updated_after
  let params := putTruthyInt params "updated_before" updated_before
  let params := putTruthyList params "updated_by" updated_by
  let params := putTruthyInt params "limit" limit
  let params := putTruthyInt params "offset" offset
  params

/-- Params of `get_milestones` (lines 254-273). -/
def get_milestones_params (is_completed is_started limit offset : Option Int) :
    List (String × PValue) :=
  let params := []
  let params := putNotNone params "is_completed" is_completed
  let params := putNotNone params "is_started" is_started
  let params := putTruthyInt params "limit" limit
  let params := putTruthyInt params "offset" offset
  params

/-- Params of `get_plans` (lines 293-321). -/
def get_plans_params (created_after created_before : Option Int)
    (created_by : Option (List Int)) (is_completed limit : Option Int)
    (milestone_id : Option (List Int)) (offset : Option Int) :
    List (String × PValue) :=
  let params := []
  let params := putTruthyInt params "created_after" created_after
  let params := putTruthyInt params "created_before" created_before
  let params := putTruthyList params "created_by" created_by
  let params := putNotNone params "is_completed" is_completed
  let params := putTruthyInt params "limit" limit
  let params := putTruthyList params "milestone_id" milestone_id
  let params := putTruthyInt params "offset" offset
  params

/-- Params of `get_projects` (lines 365-380). -/
def get_projects_params (is_completed limit offset : Option Int) :
    List (String × PValue) :=
  let params := []
  let params := putNotNone params "is_completed" is_completed
  let params := putTruthyInt params "limit" limit
  let params := putTruthyInt params "offset" offset
  params

/-- Params of `get_results` (lines 406-422). -/
def get_results_params (limit offset : Option Int)
    (status_id : Option (List Int)) : List (String × PValue) :=
  let params := []
  let params := putTruthyInt params "limit" limit
  let params := putTruthyInt params "offset" offset
  let params := putTruthyList params "status_id" status_id
  params

/-- Params of `get_results_for_case` (lines 424-443). -/
def get_results_for_case_params (limit offset : Option Int)
    (status_id : Option (List Int)) : List (String × PValue) :=
  let params := []
  let params := putTruthyInt params "limit" limit
  let params := putTruthyInt params "offset" offset
  let params := putTruthyList params "status_id" status_id
  params

/-- Params of `get_results_for_run` (lines 445-470). -/
def get_results_for_run_params (created_after created_before : Option Int)
    (created_by : Option (List Int)) (limit offset : Option Int)
    (status_id : Option (List Int)) : List (String × PValue) :=
  let params := []
  let params := putTruthyInt params "created_after" created_after
  let params := putTruthyInt params "created_before" created_before
  let params := putTruthyList params "created_by" created_by
  let params := putTruthyInt params "limit" limit
  let params := putTruthyInt params "offset" offset
  let params := putTruthyList params "status_id" status_id
  params

/-- Params of `get_runs` (lines 502-533). -/
def get_runs_params (created_after created_before : Option Int)
    (created_by : Option (List Int)) (is_completed limit : Option Int)
    (milestone_id : Option (List Int)) (offset : Option Int)
    (suite_id : Option (List Int)) : List (String × PValue) :=
  let params := []
  let params := putTruthyInt params "created_after" created_after
  let params := putTruthyInt params "created_before" created_before
  let params := putTruthyList params "created_by" created_by
  let params := putNotNone params "is_completed" is_completed
  let params := putTruthyInt params "limit" limit
  let params := putTruthyList params "milestone_id" milestone_id
  let params := putTruthyInt params "offset" offset
  let params := putTruthyList params "suite_id" suite_id
  params

/-- Params of `get_sections` (lines 557-573). -/
def get_sections_params (suite_id limit offset : Option Int) :
    List (String × PValue) :=
  let params := []
  let params := putTruthyInt params "suite_id" suite_id
  let params := putTruthyInt params "limit" limit
  let params := putTruthyInt params "offset" offset
  params

/-- Params of `get_tests` (lines 637-653). -/
def get_tests_params (status_id : Option (List Int))
    (limit offset : Option Int) : List (String × PValue) :=
  let params := []
  let params := putTruthyList params "status_id" status_id
  let params := putTruthyInt params "limit" limit
  let params := putTruthyInt params "offset" offset
  params

/-- Params of `get_users` (lines 665-675). -/
def get_users_params (limit offset : Option Int) : List (String × PValue) :=
  let params := []
  let params := putTruthyInt params "limit" limit
  let params := putTruthyInt params "offset" offset
  params

/-- Params of `get_shared_steps` (lines 742-775). -/
def get_shared_steps_params (created_after created_before : Option Int)
    (created_by : Option (List Int)) (limit offset : Option Int)
    (updated_after updated_before : Option Int)
    (updated_by : Option (List Int)) : List (String × PValue) :=
  let params := []
  let params := putTruthyInt params "created_after" created_after
  let params := putTruthyInt params "created_before" created_before
  let params := putTruthyList params "created_by" created_by
  let params := putTruthyInt params "limit" limit
  let params := putTruthyInt params "offset" offset
  let params := putTruthyInt params "updated_after" updated_after
  let params := putTruthyInt params "updated_before" updated_before
  let params := putTruthyList params "updated_by" updated_by
  params

/-- Params of `get_bdd_steps` (lines 818-828). -/
def get_bdd_steps_params (limit offset : Option Int) :
    List (String × PValue) :=
  let params := []
  let params := putTruthyInt params "limit" limit
  let params := putTruthyInt params "offset" offset
  params

/-- Params of `get_datasets` (lines 832-842). -/
def get_datasets_params (limit offset : Option Int) :
    List (String × PValue) :=
  let params := []
  let params := putTruthyInt params "limit" limit
  let params := putTruthyInt params "offset" offset
  params

/-! ### Attachment uploads (testrail_client.py lines 683-723) -/

/-- Splitting a character list on a separator, as Python `str.split` with a
one-character separator does: the result is always non-empty, adjacent
separators give empty components. -/
def splitOnChar (sep : Char) : List Char → List (List Char)
  | [] => [[]]
  | c :: rest =>
    let r := splitOnChar sep rest
    if c = sep then [] :: r
    else
      match r with
      | [] => [[c]]
      | g :: gs => (c :: g) :: gs

/-- Embeds `file_path.split("/")[-1]`: the last component of the path
(Python `split` always returns a non-empty list, so `[-1]` is its last
element). -/
def basename (file_path : String) : String :=
  String.mk ((splitOnChar '/' file_path.data).getLastD [])

/-- Request built by `add_attachment_to_case` (lines 683-689): the file content is read and
attached under field name `attachment` with the basename as filename; the
request is built by `_send_request` with `files` set and no body. -/
def add_attachment_to_case_request (c : TestRailClient) (case_id : Int)
    (file_path content : String) : RequestKwargs :=
  sendRequestKwargs c "POST" ("add_attachment_to_case/" ++ toString case_id)
    none [("attachment", basename file_path, content)] []

/-- Request built by `add_attachment_to_plan` (lines 691-697). -/
def add_attachment_to_plan_request (c : TestRailClient) (plan_id : Int)
    (file_path content : String) : RequestKwargs :=
  sendRequestKwargs c "POST" ("add_attachment_to_plan/" ++ toString plan_id)
    none [("attachment", basename file_path, content)] []

/-- Request built by `add_attachment_to_plan_entry` (lines 699-707). -/
def add_attachment_to_plan_entry_request (c : TestRailClient)
    (plan_id entry_id : Int) (file_path content : String) : RequestKwargs :=
  sendRequestKwargs c "POST"
    ("add_attachment_to_plan_entry/" ++ toString plan_id ++ "/" ++ toString entry_id)
    none [("attachment", basename file_path, content)] []

/-- Request built by `add_attachment_to_result` (lines 709-715). -/
def add_attachment_to_result_request (c : TestRailClient) (result_id : Int)
    (file_path content : String) : RequestKwargs :=
  sendRequestKwargs c "POST" ("add_attachment_to_result/" ++ toString result_id)
    none [("attachment", basename file_path, content)] []

/-- Request built by `add_attachment_to_run` (lines 717-723). -/
def add_attachment_to_run_request (c : TestRailClient) (run_id : Int)
    (file_path content : String) : RequestKwargs :=
  sendRequestKwargs c "POST" ("add_attachment_to_run/" ++ toString run_id)
    none [("attachment", basename file_path, content)] []

/-! ### Composite helpers (testrail_client.py lines 878-926) -/

/-- Embeds `bulk_add_cases` (lines 878-884).  The i-th entry of `outcomes`
is the outcome of the i-th `add_case` call (`.ok` = the decoded response,
`.error` = the exception `add_case` raised).  The loop appends each result;
a raised exception propagates out of the method immediately. -/
def bulk_add_cases : List (Except String Json) → Except String (List Json)
  | [] => Except.ok []
  | Except.error e :: _ => Except.error e
  | Except.ok r :: rest =>
    match bulk_add_cases rest with
    | Except.error e => Except.error e
    | Except.ok rs => Except.ok (r :: rs)

/-- How many `add_case` calls `bulk_add_cases` actually issues before
returning or propagating: the loop stops at the first raised exception. -/
def bulk_calls_made : List (Except String Json) → Nat
  | [] => 0
  | Except.ok _ :: rest => 1 + bulk_calls_made rest
  | Except.error _ :: _ => 1

/-- Python iteration `for x in obj` over a decoded JSON value: a list
yields its elements, a dict yields its keys (as strings), a string yields
its one-character substrings; other values raise `TypeError`. -/
def iterPy : Json → Except String (List Json)
  | Json.arr xs => Except.ok xs
  | Json.obj kvs => Except.ok (kvs.map (fun kv => Json.str kv.1))
  | Json.str s => Except.ok (s.data.map (fun c => Json.str (String.mk [c])))
  | _ => Except.error "TypeError: object is not iterable"

/-- The shared search loop of the find-by-name helpers:
`for entry in entries: if entry.get("name") == target: return entry` and
`return None` when the loop ends.  A non-dict entry raises
`AttributeError` on `.get`; a dict whose `name` value is not the string
`target` (including a missing or non-string `name`) does not match. -/
def findByName (target : String) : List Json → Except String (Option Json)
  | [] => Except.ok none
  | Json.obj kvs :: rest =>
    match jLookup kvs "name" with
    | some (Json.str s) =>
      if s = target then Except.ok (some (Json.obj kvs))
      else findByName target rest
    | _ => findByName target rest
  | _ :: _ => Except.error "AttributeError: no attribute get"

/-- Embeds `get_project_by_name` (lines 886-892), parametrized by the
decoded `get_projects()` response.  `result["projects"]` raises `KeyError`
when the key is absent and `TypeError` when the response is not a dict;
the inner value is then iterated and searched. -/
def get_project_by_name (result : Json) (project_name : String) :
    Except String (Option Json) :=
  match result with
  | Json.obj kvs =>
    match jLookup kvs "projects" with
    | some inner =>
      match iterPy inner with
      | Except.error e => Except.error e
      | Except.ok entries => findByName project_name entries
    | none => Except.error "KeyError: projects"
  | _ => Except.error "TypeError: not subscriptable"

/-- Embeds `get_suite_by_name` (lines 894-900), parametrized by the decoded
`get_suites(...)` response, which is iterated directly. -/
def get_suite_by_name (suites : Json) (suite_name : String) :
    Except String (Option Json) :=
  match iterPy suites with
  | Except.error e => Except.error e
  | Except.ok entries => findByName suite_name entries

/-- Embeds `get_run_by_name` (lines 902-908). -/
def get_run_by_name (runs : Json) (run_name : String) :
    Except String (Option Json) :=
  match iterPy runs with
  | Except.error e => Except.error e
  | Except.ok entries => findByName run_name entries

/-- Embeds `get_milestone_by_name` (lines 910-918). -/
def get_milestone_by_name (milestones : Json) (milestone_name : String) :
    Except String (Option Json) :=
  match iterPy milestones with
  | Except.error e => Except.error e
  | Except.ok entries => findByName milestone_name entries

/-- Embeds `get_user_by_name` (lines 920-926). -/
def get_user_by_name (users : Json) (username : String) :
    Except String (Option Json) :=
  match iterPy users with
  | Except.error e => Except.error e
  | Except.ok entries => findByName username entries

/-! ### The Façade (mcp_server.py) -/

/-- Embeds `_handle_error` (mcp_server.py lines 24-28): the uniform error
value every tool returns on failure. -/
def handle_error (operation : String) (errorMsg : String) : Json :=
  Json.obj [("error", Json.str ("Error in " ++ operation ++ ": " ++ errorMsg))]

/-- Embeds the uniform `try: return self.client.op(...) except Exception as
e: return self._handle_error("op", e)` body every registered tool has
(mcp_server.py lines 33-786): the underlying call's outcome is passed
through on success and converted by `_handle_error` on failure. -/
def runTool (name : String) (call : Except String Json) : Json :=
  match call with
  | Except.ok v => v
  | Except.error e => handle_error name e

/-! ### Helper lemmas -/

theorem keys_putTruthyInt (ps : List (String × PValue)) (k : String)
    (v : Option Int) :
    (putTruthyInt ps k v).map Prod.fst
      = ps.map Prod.fst ++ (if truthyInt v then [k] else []) := by
  cases v with
  | none => simp [putTruthyInt, truthyInt]
  | some n =>
    by_cases h : n = 0
    · simp [putTruthyInt, truthyInt, h]
    · simp [putTruthyInt, truthyInt, h]

theorem keys_putTruthyList (ps : List (String × PValue)) (k : String)
    (v : Option (List Int)) :
    (putTruthyList ps k v).map Prod.fst
      = ps.map Prod.fst ++ (if truthyList v then [k] else []) := by
  cases v with
  | none => simp [putTruthyList, truthyList]
  | some l =>
    cases l with
    | nil => simp [putTruthyList, truthyList]
    | cons a as => simp [putTruthyList, truthyList]

theorem keys_putNotNone (ps : List (String × PValue)) (k : String)
    (v : Option Int) :
    (putNotNone ps k v).map Prod.fst
      = ps.map Prod.fst ++ (if v.isSome then [k] else []) := by
  cases v with
  | none => simp [putNotNone]
  | some n => simp [putNotNone]

theorem mem_putTruthyInt {x : String × PValue} {ps : List (String × PValue)}
    {k : String} {v : Option Int} (h : x ∈ ps) : x ∈ putTruthyInt ps k v := by
  cases v with
  | none => exact h
  | some n =>
    simp only [putTruthyInt]
    split
    · exact List.mem_append_left _ h
    · exact h

theorem mem_putTruthyList {x : String × PValue} {ps : List (String × PValue)}
    {k : String} {v : Option (List Int)} (h : x ∈ ps) :
    x ∈ putTruthyList ps k v := by
  cases v with
  | none => exact h
  | some l =>
    simp only [putTruthyList]
    split
    · exact List.mem_append_left _ h
    · exact h

theorem mem_putNotNone {x : String × PValue} {ps : List (String × PValue)}
    {k : String} {v : Option Int} (h : x ∈ ps) : x ∈ putNotNone ps k v := by
  cases v with
  | none => exact h
  | some n => exact List.mem_append_left _ h

theorem putNotNone_mem_self {ps : List (String × PValue)} {k : String}
    {n : Int} : (k, PValue.int n) ∈ putNotNone ps k (some n) := by
  simp [putNotNone]

theorem putTruthyInt_mem_self {ps : List (String × PValue)} {k : String}
    {n : Int} (h : n ≠ 0) : (k, PValue.int n) ∈ putTruthyInt ps k (some n) := by
  simp [putTruthyInt, h]

theorem putTruthyList_mem_self {ps : List (String × PValue)} {k : String}
    {l : List Int} (h : l ≠ []) :
    (k, PValue.str (commaJoin l)) ∈ putTruthyList ps k (some l) := by
  cases l with
  | nil => exact absurd rfl h
  | cons a as => simp [putTruthyList]

theorem strContains_right (a s : String) : strContains (a ++ s) s = true := by
  simp only [strContains, decide_eq_true_eq, String.data_append]
  simpa using List.infix_append a.data s.data []

theorem strContains_append_mono (s t sub : String)
    (h : strContains s sub = true) : strContains (s ++ t) sub = true := by
  simp only [strContains, decide_eq_true_eq, String.data_append] at h ⊢
  exact h.trans ⟨[], t.data, by simp⟩

/-! ### Claim theorems -/

/-- C1, counterexample: with three case payloads where the second add-case
call fails, `bulk_add_cases` propagates the failure after issuing only two
calls; it does not return three outcomes. -/
theorem C1_counterexample :
    bulk_add_cases [Except.ok (Json.num 1),
        Except.error "TestRail API returned HTTP 400",
        Except.ok (Json.num 3)]
      = Except.error "TestRail API returned HTTP 400"
    ∧ bulk_calls_made [Except.ok (Json.num 1),
        Except.error "TestRail API returned HTTP 400",
        Except.ok (Json.num 3)] = 2 :=
  ⟨rfl, rfl⟩

/-- C1, amended: `bulk_add_cases` issues one add-case call per payload in
input order and collects the results, but it is fail-fast: when every call
succeeds it returns one result per payload in order, and when a call fails
the exception propagates immediately — the calls after the first failure
are never issued and no aggregated per-payload outcome list is produced. -/
theorem C1_bulk_add_cases_fail_fast :
    (∀ rs : List Json,
      bulk_add_cases (rs.map Except.ok) = Except.ok rs
      ∧ bulk_calls_made (rs.map Except.ok) = rs.length)
    ∧ (∀ (rs : List Json) (e : String) (rest : List (Except String Json)),
      bulk_add_cases (rs.map Except.ok ++ Except.error e :: rest)
        = Except.error e
      ∧ bulk_calls_made (rs.map Except.ok ++ Except.error e :: rest)
        = rs.length + 1) := by
  constructor
  · intro rs
    induction rs with
    | nil => exact ⟨rfl, rfl⟩
    | cons r rs ih =>
      refine ⟨?_, ?_⟩
      · simp only [List.map_cons, bulk_add_cases, ih.1]
      · simp only [List.map_cons, bulk_calls_made, ih.2, List.length_cons]
        omega
  · intro rs e rest
    induction rs with
    | nil => exact ⟨rfl, rfl⟩
    | cons r rs ih =>
      refine ⟨?_, ?_⟩
      · simp only [List.map_cons, List.cons_append, bulk_add_cases,
          List.append_eq, ih.1]
      · simp only [List.map_cons, List.cons_append, bulk_calls_made,
          List.append_eq, ih.2, List.length_cons]
        omega

/-- C2, counterexample: `get_users(limit=0)` omits the `limit` key, and
`get_cases(created_by=[])` omits the `created_by` key — a caller-supplied
zero or empty list is treated as absent, contradicting the claim that the
key is included whenever the value is not None. -/
theorem C2_counterexample :
    get_users_params (some 0) none = []
    ∧ get_cases_params none none none none (some []) none none none none
        none none none none none = [] :=
  ⟨rfl, rfl⟩

/-- C2, amended: for the filters guarded by `is not None`
(`is_completed`, `is_started`) the key is included exactly when the value
is not None, zero included; every other optional filter is guarded by
Python truthiness, so its key is included exactly when the value is
truthy — None, zero and the empty list are all treated as absent.  Stated
as an exact characterization of the emitted keys of `get_users`,
`get_cases` and `get_milestones`. -/
theorem C2_filter_inclusion_truthiness :
    (∀ limit offset, (get_users_params limit offset).map Prod.fst
      = (if truthyInt limit then ["limit"] else [])
        ++ (if truthyInt offset then ["offset"] else []))
    ∧ (∀ suite_id section_id created_after created_before created_by
        milestone_id priority_id template_id type_id updated_after
        updated_before updated_by limit offset,
      (get_cases_params suite_id section_id created_after created_before
          created_by milestone_id priority_id template_id type_id
          updated_after updated_before updated_by limit offset).map Prod.fst
      = (if truthyInt suite_id then ["suite_id"] else [])
        ++ (if truthyInt section_id then ["section_id"] else [])
        ++ (if truthyInt created_after then ["created_after"] else [])
        ++ (if truthyInt created_before then ["created_before"] else [])
        ++ (if truthyList created_by then ["created_by"] else [])
        ++ (if truthyList milestone_id then ["milestone_id"] else [])
        ++ (if truthyList priority_id then ["priority_id"] else [])
        ++ (if truthyList template_id then ["template_id"] else [])
        ++ (if truthyList type_id then ["type_id"] else [])
        ++ (if truthyInt updated_after then ["updated_after"] else [])
        ++ (if truthyInt updated_before then ["updated_before"] else [])
        ++ (if truthyList updated_by then ["updated_by"] else [])
        ++ (if truthyInt limit then ["limit"] else [])
        ++ (if truthyInt offset then ["offset"] else []))
    ∧ (∀ is_completed is_started limit offset,
      (get_milestones_params is_completed is_started limit offset).map Prod.fst
      = (if is_completed.isSome then ["is_completed"] else [])
        ++ (if is_started.isSome then ["is_started"] else [])
        ++ (if truthyInt limit then ["limit"] else [])
        ++ (if truthyInt offset then ["offset"] else [])) := by
  refine ⟨fun limit offset => ?_, fun _ _ _ _ _ _ _ _ _ _ _ _ _ _ => ?_,
    fun _ _ _ _ => ?_⟩ <;>
    simp [get_users_params, get_cases_params, get_milestones_params,
      keys_putTruthyInt, keys_putTruthyList, keys_putNotNone,
      List.append_assoc]

/-- C4: every listing operation called with no optional filters builds an
empty params dict (and `_send_request` then attaches no query parameters),
while `is_completed=0` is still emitted by the four operations carrying
that filter (`get_projects`, `get_milestones`, `get_plans`, `get_runs`),
whatever the other arguments are. -/
theorem C4_parameter_omission :
    (get_cases_params none none none none none none none none none none
        none none none none = []
      ∧ get_milestones_params none none none none = []
      ∧ get_plans_params none none none none none none none = []
      ∧ get_projects_params none none none = []
      ∧ get_results_params none none none = []
      ∧ get_results_for_case_params none none none = []
      ∧ get_results_for_run_params none none none none none none = []
      ∧ get_runs_params none none none none none none none none = []
      ∧ get_sections_params none none none = []
      ∧ get_tests_params none none none = []
      ∧ get_users_params none none = []
      ∧ get_shared_steps_params none none none none none none none none = []
      ∧ get_bdd_steps_params none none = []
      ∧ get_datasets_params none none = [])
    ∧ (∀ c method endpoint,
      (sendRequestKwargs c method endpoint none [] []).params = [])
    ∧ (∀ limit offset,
      ("is_completed", PValue.int 0) ∈ get_projects_params (some 0) limit offset)
    ∧ (∀ is_started limit offset,
      ("is_completed", PValue.int 0)
        ∈ get_milestones_params (some 0) is_started limit offset)
    ∧ (∀ created_after created_before created_by limit milestone_id offset,
      ("is_completed", PValue.int 0)
        ∈ get_plans_params created_after created_before created_by (some 0)
            limit milestone_id offset)
    ∧ (∀ created_after created_before created_by limit milestone_id offset
        suite_id,
      ("is_completed", PValue.int 0)
        ∈ get_runs_params created_after created_before created_by (some 0)
            limit milestone_id offset suite_id) := by
  refine ⟨⟨rfl, rfl, rfl, rfl, rfl, rfl, rfl, rfl, rfl, rfl, rfl, rfl, rfl,
      rfl⟩, fun c method endpoint => rfl, ?_, ?_, ?_, ?_⟩
  · intro limit offset
    exact mem_putTruthyInt (mem_putTruthyInt putNotNone_mem_self)
  · intro is_started limit offset
    exact mem_putTruthyInt (mem_putTruthyInt (mem_putNotNone
      putNotNone_mem_self))
  · intro created_after created_before created_by limit milestone_id offset
    exact mem_putTruthyInt (mem_putTruthyList (mem_putTruthyInt
      putNotNone_mem_self))
  · intro created_after created_before created_by limit milestone_id offset
      suite_id
    exact mem_putTruthyList (mem_putTruthyInt (mem_putTruthyList
      (mem_putTruthyInt putNotNone_mem_self)))

/-- C5: a non-empty list filter is emitted as the comma-joined decimal
string of its elements in caller order (`get_results.status_id`,
`get_tests.status_id`), scalar filters are passed through as ints
unchanged, and `[1, 5, 3]` encodes to `1,5,3`. -/
theorem C5_list_encoding :
    (∀ (limit offset : Option Int) (l : List Int), l ≠ [] →
      ("status_id", PValue.str (commaJoin l))
        ∈ get_results_params limit offset (some l))
    ∧ (∀ (l : List Int) (limit offset : Option Int), l ≠ [] →
      ("status_id", PValue.str (commaJoin l))
        ∈ get_tests_params (some l) limit offset)
    ∧ (∀ (n : Int), n ≠ 0 → ∀ (offset : Option Int)
        (status_id : Option (List Int)),
      ("limit", PValue.int n) ∈ get_results_params (some n) offset status_id)
    ∧ commaJoin [1, 5, 3] = "1,5,3" := by
  refine ⟨?_, ?_, ?_, rfl⟩
  · intro limit offset l h
    exact putTruthyList_mem_self h
  · intro l limit offset h
    exact mem_putTruthyInt (mem_putTruthyInt (putTruthyList_mem_self h))
  · intro n h offset status_id
    exact mem_putTruthyList (mem_putTruthyInt (putTruthyInt_mem_self h))

/-- C5, witness: concrete instantiation at `status_id=[1,5,3]` and
`limit=2`. -/
theorem C5_list_encoding_witness :
    ("status_id", PValue.str (commaJoin [1, 5, 3]))
      ∈ get_results_params none none (some [1, 5, 3])
    ∧ ("limit", PValue.int 2) ∈ get_results_params (some 2) none none :=
  ⟨C5_list_encoding.1 none none [1, 5, 3] (by decide),
   C5_list_encoding.2.2.1 2 (by decide) none none⟩

/-- An error message always carries the status code as a substring:
every branch of `errorMessage` produces the base string (which ends in the
decimal status) possibly extended on the right. -/
theorem strContains_errorMessage (status : Nat) (parsed : Option Json)
    (raw : String) :
    strContains (errorMessage status parsed raw) (toString status) = true := by
  have hbase :
      strContains ("TestRail API returned HTTP " ++ toString status)
        (toString status) = true :=
    strContains_right _ _
  have hext : ∀ t : String,
      strContains (("TestRail API returned HTTP " ++ toString status) ++ ": "
        ++ t) (toString status) = true := by
    intro t
    exact strContains_append_mono _ _ _ (strContains_append_mono _ _ _ hbase)
  cases parsed with
  | none => simpa only [errorMessage] using hext raw
  | some j =>
    cases j with
    | null => simpa only [errorMessage] using hext raw
    | bool b => simpa only [errorMessage] using hext raw
    | num n => simpa only [errorMessage] using hext raw
    | str s =>
      simp only [errorMessage]
      by_cases h : strContains s "error" = true
      · rw [if_pos h]
        exact hext raw
      · rw [if_neg h]
        exact hbase
    | arr xs =>
      simp only [errorMessage]
      by_cases h : xs.contains (Json.str "error") = true
      · rw [if_pos h]
        exact hext raw
      · rw [if_neg h]
        exact hbase
    | obj kvs =>
      simp only [errorMessage]
      cases h : jLookup kvs "error" with
      | none =>
        simp only [h]
        exact hbase
      | some v =>
        simp only [h]
        exact hext (pyStr v)

/-- C3, counterexample: a 400 response whose body is valid JSON without an
`error` field yields a failure message that is exactly the base text — it
contains neither the `error` text (there is none) nor the raw response
body, contradicting the claim's "otherwise the raw response text". -/
theorem C3_counterexample :
    errorMessage 400 (some (Json.obj [("foo", Json.num 1)])) "RAW BODY TEXT"
      = "TestRail API returned HTTP 400"
    ∧ strContains "TestRail API returned HTTP 400" "RAW BODY TEXT" = false
    ∧ classifyResponse 400 (some (Json.obj [("foo", Json.num 1)]))
        "RAW BODY TEXT"
      = Except.error "TestRail API returned HTTP 400" :=
  ⟨rfl, by decide, rfl⟩

/-- C3, amended: every response with status ≥ 400 raises (never returns
normally) and the failure message contains the numeric status code; the
`error` field's text is appended when the body is a JSON object carrying
that field, and the raw response text is appended when the body fails to
decode as JSON — but a body that decodes to a JSON object without an
`error` field contributes nothing (the message is the bare status line). -/
theorem C3_error_classification :
    ∀ (status : Nat) (parsed : Option Json) (raw : String), 400 ≤ status →
      classifyResponse status parsed raw
        = Except.error (errorMessage status parsed raw)
      ∧ strContains (errorMessage status parsed raw) (toString status) = true
      ∧ (∀ kvs v, jLookup kvs "error" = some v →
        errorMessage status (some (Json.obj kvs)) raw
          = "TestRail API returned HTTP " ++ toString status ++ ": " ++ pyStr v)
      ∧ errorMessage status none raw
          = "TestRail API returned HTTP " ++ toString status ++ ": " ++ raw
      ∧ (∀ kvs, jLookup kvs "error" = none →
        errorMessage status (some (Json.obj kvs)) raw
          = "TestRail API returned HTTP " ++ toString status) := by
  intro status parsed raw h
  refine ⟨by simp [classifyResponse, h], strContains_errorMessage status parsed raw,
    ?_, rfl, ?_⟩
  · intro kvs v hv
    simp only [errorMessage, hv]
  · intro kvs hv
    simp only [errorMessage, hv]

/-- C3, witness: the spec's own round-trip example, a 400 response with
body `error = "Field :name is not a valid test case field."`. -/
theorem C3_error_classification_witness :
    classifyResponse 400
        (some (Json.obj
          [("error", Json.str "Field :name is not a valid test case field.")]))
        "ignored"
      = Except.error
          "TestRail API returned HTTP 400: Field :name is not a valid test case field."
    ∧ strContains
        (errorMessage 400
          (some (Json.obj
            [("error", Json.str "Field :name is not a valid test case field.")]))
          "ignored")
        (toString 400) = true := by
  have h := C3_error_classification 400
    (some (Json.obj
      [("error", Json.str "Field :name is not a valid test case field.")]))
    "ignored" (by decide)
  refine ⟨?_, h.2.1⟩
  rw [h.1, h.2.2.1 [("error", Json.str "Field :name is not a valid test case field.")]
    (Json.str "Field :name is not a valid test case field.") rfl]
  rfl

/-- C6: every Façade tool converts a failure raised by the underlying
client call into exactly the mapping
`error = "Error in <tool-name>: <message>"` and never lets the fault
propagate, and passes a successful result through unchanged; in
particular a transport failure from `_send_request` surfaces as the
`_handle_error` value. -/
theorem C6_facade_error_shape :
    (∀ name msg, runTool name (Except.error msg)
      = Json.obj [("error", Json.str ("Error in " ++ name ++ ": " ++ msg))])
    ∧ (∀ name v, runTool name (Except.ok v) = v)
    ∧ (∀ name status parsed raw, 400 ≤ status →
      runTool name (classifyResponse status parsed raw)
        = handle_error name (errorMessage status parsed raw)) := by
  refine ⟨fun name msg => rfl, fun name v => rfl,
    fun name status parsed raw h => ?_⟩
  simp [classifyResponse, h, runTool]

/-- C6, witness: the `get_projects` tool over a 404 transport failure. -/
theorem C6_facade_error_shape_witness :
    runTool "get_projects" (classifyResponse 404 none "Not Found")
      = Json.obj [("error",
          Json.str "Error in get_projects: TestRail API returned HTTP 404: Not Found")] := by
  rw [C6_facade_error_shape.2.2 "get_projects" 404 none "Not Found" (by decide)]
  rfl

/-- C7: a 2xx (more generally, sub-400) response never raises a decode
failure: a body that decodes as JSON is returned unchanged, and a body
that does not decode is wrapped as the single-field fallback
`text = <raw body>`. -/
theorem C7_decode_fallback :
    ∀ (status : Nat) (raw : String), status < 400 →
      (∀ j, classifyResponse status (some j) raw = Except.ok j)
      ∧ classifyResponse status none raw
        = Except.ok (Json.obj [("text", Json.str raw)]) := by
  intro status raw h
  have hnot : ¬status ≥ 400 := by omega
  exact ⟨fun j => by simp [classifyResponse, hnot],
    by simp [classifyResponse, hnot]⟩

/-- C7, witness: a 200 response with a non-JSON body and one with a JSON
body. -/
theorem C7_decode_fallback_witness :
    classifyResponse 200 none "plain text body"
      = Except.ok (Json.obj [("text", Json.str "plain text body")])
    ∧ classifyResponse 200 (some (Json.arr [])) "[]"
      = Except.ok (Json.arr []) :=
  ⟨(C7_decode_fallback 200 "plain text body" (by decide)).2,
   (C7_decode_fallback 200 "[]" (by decide)).1 (Json.arr [])⟩

/-- C8: for a base URL without a trailing slash, construction with and
without the trailing slash appended yields the same normalized base, which
is the input followed by exactly one separator and the fixed suffix
`index.php?/api/v2/`; hence every request URL agrees between the two
clients. -/
theorem C8_url_normalization :
    ∀ (b username api_key : String), endsWithSlash b = false →
      normalizeBaseUrl b = normalizeBaseUrl (b ++ "/")
      ∧ normalizeBaseUrl b = b ++ "/index.php?/api/v2/"
      ∧ (mkClient b username api_key).base_url
          = (mkClient (b ++ "/") username api_key).base_url := by
  intro b username api_key h
  have hdata : (b ++ "/").data = b.data ++ ['/'] := by
    rw [String.data_append]
  have hslash : endsWithSlash (b ++ "/") = true := by
    simp [endsWithSlash, hdata, List.getLast?_concat]
  have h1 : normalizeBaseUrl b = (b ++ "/") ++ "index.php?/api/v2/" := by
    simp [normalizeBaseUrl, h]
  have h2 : normalizeBaseUrl (b ++ "/") = (b ++ "/") ++ "index.php?/api/v2/" := by
    simp [normalizeBaseUrl, hslash]
  refine ⟨h1.trans h2.symm, ?_, ?_⟩
  · have hlit : ("/" : String) ++ "index.php?/api/v2/" = "/index.php?/api/v2/" := rfl
    rw [h1, String.append_assoc, hlit]
  · simpa [mkClient] using h1.trans h2.symm

/-- C8, witness: the spec's own example base URL. -/
theorem C8_url_normalization_witness :
    normalizeBaseUrl "https://x.testrail.io"
      = normalizeBaseUrl ("https://x.testrail.io" ++ "/")
    ∧ normalizeBaseUrl "https://x.testrail.io"
      = "https://x.testrail.io" ++ "/index.php?/api/v2/" := by
  have h := C8_url_normalization "https://x.testrail.io" "user" "key" (by decide)
  exact ⟨h.1, h.2.1⟩

/-- C9: every attachment-upload request drops the JSON content-type header
while retaining the Authorization header, and attaches the file under the
fixed field name `attachment` with the basename of the supplied path as
its filename; `basename` strips all path components. -/
theorem C9_multipart_branching :
    ∀ (base username api_key : String) (id1 id2 : Int) (path content : String),
      ((add_attachment_to_case_request (mkClient base username api_key) id1
          path content).headers
        = some [("Authorization", "Basic " ++ authToken username api_key)]
      ∧ (add_attachment_to_case_request (mkClient base username api_key) id1
          path content).files
        = [("attachment", basename path, content)])
      ∧ ((add_attachment_to_plan_request (mkClient base username api_key) id1
          path content).headers
        = some [("Authorization", "Basic " ++ authToken username api_key)]
      ∧ (add_attachment_to_plan_request (mkClient base username api_key) id1
          path content).files
        = [("attachment", basename path, content)])
      ∧ ((add_attachment_to_plan_entry_request (mkClient base username api_key)
          id1 id2 path content).headers
        = some [("Authorization", "Basic " ++ authToken username api_key)]
      ∧ (add_attachment_to_plan_entry_request (mkClient base username api_key)
          id1 id2 path content).files
        = [("attachment", basename path, content)])
      ∧ ((add_attachment_to_result_request (mkClient base username api_key) id1
          path content).headers
        = some [("Authorization", "Basic " ++ authToken username api_key)]
      ∧ (add_attachment_to_result_request (mkClient base username api_key) id1
          path content).files
        = [("attachment", basename path, content)])
      ∧ ((add_attachment_to_run_request (mkClient base username api_key) id1
          path content).headers
        = some [("Authorization", "Basic " ++ authToken username api_key)]
      ∧ (add_attachment_to_run_request (mkClient base username api_key) id1
          path content).files
        = [("attachment", basename path, content)])
      ∧ basename "screenshots/run1/failure.png" = "failure.png" := by
  intro base username api_key id1 id2 path content
  exact ⟨⟨rfl, rfl⟩, ⟨rfl, rfl⟩, ⟨rfl, rfl⟩, ⟨rfl, rfl⟩, ⟨rfl, rfl⟩,
    by decide⟩

/-- C10: `get_project_by_name` requires the listing response to be a
mapping with a `projects` key (raising, not returning the not-found
signal, when the key is absent) and searches that inner sequence, whereas
the other find-by-name helpers iterate the listing response itself
directly; all of them return None when no entry's `name` matches
exactly. -/
theorem C10_find_by_name :
    (∀ kvs name, jLookup kvs "projects" = none →
      get_project_by_name (Json.obj kvs) name
        = Except.error "KeyError: projects")
    ∧ (∀ xs name,
      get_project_by_name (Json.obj [("projects", Json.arr xs)]) name
        = findByName name xs)
    ∧ (∀ xs name,
      get_suite_by_name (Json.arr xs) name = findByName name xs
      ∧ get_run_by_name (Json.arr xs) name = findByName name xs
      ∧ get_milestone_by_name (Json.arr xs) name = findByName name xs
      ∧ get_user_by_name (Json.arr xs) name = findByName name xs)
    ∧ (∀ xs name,
      (∀ e ∈ xs, ∃ kvs, e = Json.obj kvs
        ∧ jLookup kvs "name" ≠ some (Json.str name)) →
      findByName name xs = Except.ok none) := by
  refine ⟨?_, fun xs name => rfl,
    fun xs name => ⟨rfl, rfl, rfl, rfl⟩, ?_⟩
  · intro kvs name h
    simp only [get_project_by_name, h]
  · intro xs name
    induction xs with
    | nil => intro _; rfl
    | cons e rest ih =>
      intro h
      obtain ⟨kvs, rfl, hne⟩ := h e (List.mem_cons_self e rest)
      have hrest := ih fun x hx => h x (List.mem_cons_of_mem _ hx)
      simp only [findByName]
      cases hl : jLookup kvs "name" with
      | none => exact hrest
      | some v =>
        cases v with
        | str s =>
          have hs : s ≠ name := by
            intro hcontra
            exact hne (hcontra ▸ hl)
          show (if s = name then Except.ok (some (Json.obj kvs))
            else findByName name rest) = Except.ok none
          rw [if_neg hs]
          exact hrest
        | null => exact hrest
        | bool b => exact hrest
        | num n => exact hrest
        | arr ys => exact hrest
        | obj okvs => exact hrest

/-- C10, witness: a response without the `projects` key raises, a direct
list is searched as-is, and a no-match search returns the not-found
signal. -/
theorem C10_find_by_name_witness :
    get_project_by_name (Json.obj [("offset", Json.num 0)]) "Alpha"
      = Except.error "KeyError: projects"
    ∧ get_suite_by_name
        (Json.arr [Json.obj [("name", Json.str "Alpha")],
          Json.obj [("name", Json.str "Beta")]]) "Beta"
      = findByName "Beta" [Json.obj [("name", Json.str "Alpha")],
          Json.obj [("name", Json.str "Beta")]]
    ∧ findByName "Gamma" [Json.obj [("name", Json.str "Alpha")]]
      = Except.ok none := by
  refine ⟨C10_find_by_name.1 _ "Alpha" rfl,
    (C10_find_by_name.2.2.1 _ "Beta").1,
    C10_find_by_name.2.2.2 _ "Gamma" ?_⟩
  intro e he
  simp only [List.mem_singleton] at he
  subst he
  refine ⟨[("name", Json.str "Alpha")], rfl, ?_⟩
  intro hcontra
  simp [jLookup] at hcontra
